import Mathlib

/-!
Shallow embedding of the checkout/payment core of the ecomv0 backend:
cart management (src/controllers/cartController.js, first section, and
src/models/Cart.js), itemized order creation and order status updates
(src/controllers/cartController.js, second section), and the payment
controller (src/unnamed/part_000: createPaymentIntent, processPayment,
handleWebhook).

Modelling conventions:
- JavaScript numbers holding money are modelled as rationals (the source
  arithmetic on them is +, * and Math.round);
- product stock is an integer; the product schema (src/models/Product.js)
  declares a `min: 0` validator on stock, so a save that would persist a
  negative stock value is rejected by mongoose;
- request handlers become functions from a database state (products, the
  cart of the requesting user, orders) to a new state plus an
  Except-style response;
- the stripe gateway is an external collaborator: the status it reports
  for a payment intent, and webhook signature validity, are parameters.
-/

set_option maxRecDepth 4096

deriving instance DecidableEq for Except

namespace Ecom

abbrev ProductId := Nat

/-- A product record as read by this core (src/models/Product.js): catalog
price, available stock and display data. -/
structure Product where
  id : ProductId
  name : String
  price : Rat
  stock : Int
  image : String
deriving Repr, DecidableEq

abbrev Catalog := List Product

/-- Product.findById: the first catalog record with the given id. -/
def findById (ps : Catalog) (pid : ProductId) : Option Product :=
  ps.find? (fun p => p.id == pid)

/-- An ErrorResponse as produced by the controllers: message and HTTP
status code. -/
structure ErrorResponse where
  message : String
  statusCode : Nat
deriving Repr, DecidableEq

/-- An item of the create-payment-intent request body. The client may send
a per-item price field; the controller never reads it (it uses the catalog
price). -/
structure ReqItem where
  product : ProductId
  quantity : Nat
  price : Rat
deriving Repr, DecidableEq

/-- An order line: snapshot of product id, name, quantity, unit price and
image. -/
structure OrderItem where
  product : ProductId
  name : String
  quantity : Nat
  price : Rat
  image : String
deriving Repr, DecidableEq

/-- Math.round on a rational: JavaScript rounds half away from zero toward
positive infinity, i.e. round x = floor (x + 1/2). -/
def jsRound (q : Rat) : Int :=
  (q + 1/2).floor

/-- The expression `shipping?.price || 0` of createPaymentIntent: the
shipping charge when present, otherwise 0 (a present charge of 0 is falsy
in JavaScript and also yields 0). -/
def jsOrZero : Option Rat → Rat
  | none => 0
  | some x => x

/-- The fixed tax rate used by both payment paths (7%). -/
def taxRate : Rat := 7 / 100

/-- The verification loop of createPaymentIntent (src/unnamed/part_000
lines 18-36): look up each requested product, fail 404 when absent and 400
when its stock is below the requested quantity, otherwise accumulate the
catalog price times quantity and build the order-item snapshot. -/
def verifyItems (catalog : Catalog) : List ReqItem → Except ErrorResponse (Rat × List OrderItem)
  | [] => .ok (0, [])
  | item :: rest =>
    match findById catalog item.product with
    | none => .error ⟨"Product not found", 404⟩
    | some p =>
      if p.stock < (item.quantity : Int) then
        .error ⟨"Product is out of stock", 400⟩
      else
        match verifyItems catalog rest with
        | .error e => .error e
        | .ok (t, os) =>
          .ok (p.price * (item.quantity : Rat) + t,
               ⟨p.id, p.name, item.quantity, p.price, p.image⟩ :: os)

/-- createPaymentIntent (src/unnamed/part_000 lines 10-64): verify the
items against the catalog, add 7% tax and the client-supplied shipping
charge (default 0), convert to integer minor currency units with
Math.round, and request a gateway intent for that amount. The returned
value is the amount field of the response. -/
def createPaymentIntent (catalog : Catalog) (items : List ReqItem) (shipping : Option Rat) :
    Except ErrorResponse Int :=
  match verifyItems catalog items with
  | .error e => .error e
  | .ok (totalAmount, _orderItems) =>
    let taxAmount := totalAmount * taxRate
    let shippingAmount := jsOrZero shipping
    let finalAmount := jsRound ((totalAmount + taxAmount + shippingAmount) * 100)
    .ok finalAmount

/-- A cart line item (src/models/Cart.js cartItemSchema): product
reference, quantity and the unit price snapshot taken when the item was
added. The id stands for the mongoose-generated subdocument id. -/
structure CartItem where
  id : Nat
  product : ProductId
  quantity : Nat
  price : Rat
deriving Repr, DecidableEq

/-- The cart of one user (src/models/Cart.js): line items and the derived
total price. -/
structure Cart where
  items : List CartItem
  totalPrice : Rat
deriving Repr, DecidableEq

/-- The reduce expression of the cart pre-save hook:
items.reduce((total, item) => total + item.price * item.quantity, 0). -/
def cartItemsTotal (items : List CartItem) : Rat :=
  items.foldl (fun total item => total + item.price * (item.quantity : Rat)) 0

/-- Cart.save: mongoose save runs the pre-save hook of the cart schema
(src/models/Cart.js lines 37-41), which recomputes totalPrice from the
items before persisting. -/
def Cart.save (c : Cart) : Cart :=
  { c with totalPrice := cartItemsTotal c.items }

/-- The payment result subdocument stored on an order. -/
structure PaymentResult where
  id : String
  status : String
  update_time : Nat
  email_address : String
deriving Repr, DecidableEq

/-- Modelled from the spec: the Order schema. The controllers import
models/Order.js, which is not among the provided sources. Per spec section
3 an order stores its item snapshot, the four price fields and the payment
flags, and per section 9 the schema pre-save hooks of this code base
recompute only the cart total, slugs and the average rating — none
recomputes order totals — so the stored price fields are exactly the ones
given at creation. The id stands for the mongoose-generated document id. -/
structure Order where
  id : Nat
  user : Nat
  orderItems : List OrderItem
  itemsPrice : Rat
  taxPrice : Rat
  shippingPrice : Rat
  totalPrice : Rat
  isPaid : Bool
  paidAt : Option Nat
  paymentResult : Option PaymentResult
deriving Repr, DecidableEq

/-- The persisted state the embedded handlers act on: the product
collection, the cart of the requesting user (none when no cart document
exists) and the order collection. -/
structure DB where
  products : List Product
  cart : Option Cart
  orders : List Order
deriving Repr, DecidableEq

/-- The quantity of the given product currently in the cart of the user
(0 when there is no cart or the product is not in it); the first matching
line, as found by findIndex. -/
def cartQtyOf (db : DB) (pid : ProductId) : Nat :=
  match db.cart with
  | none => 0
  | some c =>
    match c.items.find? (fun item => item.product == pid) with
    | none => 0
    | some item => item.quantity

/-- The in-place quantity bump of addToCart on the first cart line holding
the given product: cart.items[itemIndex].quantity += quantity. -/
def bumpFirst (pid : ProductId) (quantity : Nat) : List CartItem → List CartItem
  | [] => []
  | item :: rest =>
    if item.product == pid then { item with quantity := item.quantity + quantity } :: rest
    else item :: bumpFirst pid quantity rest

/-- addToCart (src/controllers/cartController.js lines 34-92): validate
the product, check the requested quantity against stock, find or lazily
create the cart of the user, then either bump the quantity of an existing
line (re-checking the combined quantity against stock, returning 400
without saving when it exceeds) or push a new line with the catalog price
snapshot, and save. freshItemId stands for the subdocument id mongoose
assigns to a pushed line. -/
def addToCart (db : DB) (productId : ProductId) (quantity : Nat) (freshItemId : Nat) :
    DB × Except ErrorResponse Cart :=
  match findById db.products productId with
  | none => (db, .error ⟨"Product not found", 404⟩)
  | some product =>
    if product.stock < (quantity : Int) then
      (db, .error ⟨"Product has insufficient stock", 400⟩)
    else
      match db.cart with
      | none =>
        let c := Cart.save ⟨[⟨freshItemId, productId, quantity, product.price⟩], 0⟩
        ({ db with cart := some c }, .ok c)
      | some cart =>
        match cart.items.find? (fun item => item.product == productId) with
        | some existing =>
          if product.stock < ((existing.quantity + quantity : Nat) : Int) then
            (db, .error ⟨"Cannot add more than available stock", 400⟩)
          else
            let c := Cart.save { cart with items := bumpFirst productId quantity cart.items }
            ({ db with cart := some c }, .ok c)
        | none =>
          let c := Cart.save
            { cart with items := cart.items ++ [⟨freshItemId, productId, quantity, product.price⟩] }
          ({ db with cart := some c }, .ok c)

/-- The splice of updateCartItem and removeFromCart: remove the first cart
line with the given subdocument id. -/
def removeFirstItem (itemId : Nat) : List CartItem → List CartItem
  | [] => []
  | item :: rest =>
    if item.id == itemId then rest else item :: removeFirstItem itemId rest

/-- The quantity overwrite of updateCartItem on the first cart line with
the given subdocument id. -/
def setFirstQty (itemId : Nat) (q : Nat) : List CartItem → List CartItem
  | [] => []
  | item :: rest =>
    if item.id == itemId then { item with quantity := q } :: rest
    else item :: setFirstQty itemId q rest

/-- updateCartItem (src/controllers/cartController.js lines 97-147): find
the cart and the line, re-check the new quantity against the current stock
of the product, then overwrite the quantity (or remove the line when the
new quantity is not positive) and save. -/
def updateCartItem (db : DB) (itemId : Nat) (quantity : Int) :
    DB × Except ErrorResponse Cart :=
  match db.cart with
  | none => (db, .error ⟨"Cart not found", 404⟩)
  | some cart =>
    match cart.items.find? (fun item => item.id == itemId) with
    | none => (db, .error ⟨"Item not found in cart", 404⟩)
    | some item =>
      match findById db.products item.product with
      | none => (db, .error ⟨"Product not found", 404⟩)
      | some product =>
        if product.stock < quantity then
          (db, .error ⟨"Cannot add more than available stock", 400⟩)
        else
          let newItems :=
            if quantity ≤ 0 then removeFirstItem itemId cart.items
            else setFirstQty itemId quantity.toNat cart.items
          let c := Cart.save { cart with items := newItems }
          ({ db with cart := some c }, .ok c)

/-- removeFromCart (src/controllers/cartController.js lines 152-187):
find the cart and the line, splice the line out and save. -/
def removeFromCart (db : DB) (itemId : Nat) : DB × Except ErrorResponse Cart :=
  match db.cart with
  | none => (db, .error ⟨"Cart not found", 404⟩)
  | some cart =>
    match cart.items.find? (fun item => item.id == itemId) with
    | none => (db, .error ⟨"Item not found in cart", 404⟩)
    | some _ =>
      let c := Cart.save { cart with items := removeFirstItem itemId cart.items }
      ({ db with cart := some c }, .ok c)

/-- clearCart (src/controllers/cartController.js lines 192-213): find the
cart, empty its items and save. -/
def clearCart (db : DB) : DB × Except ErrorResponse Cart :=
  match db.cart with
  | none => (db, .error ⟨"Cart not found", 404⟩)
  | some cart =>
    let c := Cart.save { cart with items := [] }
    ({ db with cart := some c }, .ok c)

/-- One iteration of the stock update loops (processPayment lines 122-127,
createOrder lines 253-258): re-read the product, subtract the quantity and
save. A missing product makes the loop body throw (a property read on
null, surfaced as a 500 by the error middleware); the `min: 0` validator
on stock in src/models/Product.js makes a save that would persist a
negative stock reject with a validation error (also a 500). -/
def decrementStock (ps : Catalog) (pid : ProductId) (qty : Nat) :
    Except ErrorResponse Catalog :=
  match findById ps pid with
  | none => .error ⟨"Cannot read properties of null", 500⟩
  | some p =>
    if p.stock - (qty : Int) < 0 then
      .error ⟨"Product validation failed: stock cannot be negative", 500⟩
    else
      .ok (ps.map fun q => if q.id == pid then { q with stock := q.stock - (qty : Int) } else q)

/-- The stock update loop over the items of an order or cart: iterations
already executed stay persisted when a later iteration throws. -/
def decrementLoop (ps : Catalog) : List (ProductId × Nat) → Catalog × Option ErrorResponse
  | [] => (ps, none)
  | (pid, qty) :: rest =>
    match decrementStock ps pid qty with
    | .error e => (ps, some e)
    | .ok ps2 => decrementLoop ps2 rest

/-- The external payment gateway record for one intent id, as reported by
stripe.paymentIntents.retrieve. -/
structure StripeIntent where
  id : String
  status : String
deriving Repr, DecidableEq

/-- The map over cart.items of processPayment (lines 88-94): the populated
product supplies id, name and image, the cart line supplies quantity and
the snapshot price. A cart line whose product no longer exists makes the
property read on the null populate result throw (500). -/
def populateItems (ps : Catalog) : List CartItem → Except ErrorResponse (List OrderItem)
  | [] => .ok []
  | item :: rest =>
    match findById ps item.product with
    | none => .error ⟨"Cannot read properties of null", 500⟩
    | some p =>
      match populateItems ps rest with
      | .error e => .error e
      | .ok os => .ok (⟨p.id, p.name, item.quantity, item.price, p.image⟩ :: os)

/-- processPayment (src/unnamed/part_000 lines 69-139): verify the intent
with the gateway, require status succeeded, load the cart of the user and
require it nonempty, build the order-item snapshot, price the order from
the persisted cart total with 7% tax and the fixed shipping price 10,
persist the order as paid, then run the stock decrement loop and delete
the cart. `intent` is the gateway state retrieved for the request intent
id, `now` the Date.now() timestamp, `freshOrderId` the mongoose document
id. The first component of the result is the persisted state after the
request; note an order already persists even when a later stock save
throws. -/
def processPayment (db : DB) (intent : StripeIntent) (userId : Nat) (email : String)
    (now : Nat) (freshOrderId : Nat) : DB × Except ErrorResponse Order :=
  if intent.status ≠ "succeeded" then
    (db, .error ⟨"Payment not successful", 400⟩)
  else
    match db.cart with
    | none => (db, .error ⟨"No items in cart", 400⟩)
    | some cart =>
      if cart.items.isEmpty then
        (db, .error ⟨"No items in cart", 400⟩)
      else
        match populateItems db.products cart.items with
        | .error e => (db, .error e)
        | .ok orderItems =>
          let itemsPrice := cart.totalPrice
          let taxPrice := itemsPrice * (7 / 100 : Rat)
          let shippingPrice : Rat := 10
          let totalPrice := itemsPrice + taxPrice + shippingPrice
          let order : Order :=
            ⟨freshOrderId, userId, orderItems, itemsPrice, taxPrice, shippingPrice, totalPrice,
             true, some now, some ⟨intent.id, intent.status, now, email⟩⟩
          let db1 : DB := { db with orders := db.orders ++ [order] }
          let step := decrementLoop db1.products (cart.items.map fun i => (i.product, i.quantity))
          let db2 : DB := { db1 with products := step.1 }
          match step.2 with
          | some e => (db2, .error e)
          | none => ({ db2 with cart := none }, .ok order)

/-- A gateway webhook event: its type tag and the id of the payment intent
it concerns. -/
structure WebhookEvent where
  type : String
  objectId : String
deriving Repr, DecidableEq

/-- The webhook response: a 400 text reply on signature failure, or the
200 acknowledgment body with received set to true. -/
inductive WebhookResp where
  | clientError (statusCode : Nat) (message : String)
  | ack
deriving Repr, DecidableEq

/-- handleWebhook (src/unnamed/part_000 lines 144-177): verify the event
signature against the shared secret (modelled by the signatureValid flag
of constructEvent); on failure reply 400 and change nothing. On success
switch on the event type — the succeeded branch, the payment-failed
branch and the default branch each only log — then acknowledge with 200.
No branch touches orders, carts or stock. -/
def handleWebhook (db : DB) (signatureValid : Bool) (event : WebhookEvent) :
    DB × WebhookResp :=
  if !signatureValid then
    (db, .clientError 400 "Webhook Error")
  else if event.type == "payment_intent.succeeded" then
    (db, .ack)
  else if event.type == "payment_intent.payment_failed" then
    (db, .ack)
  else
    (db, .ack)

/-- The declared price fields of a createOrder request body, taken from
the client unchecked. -/
structure DeclaredPrices where
  itemsPrice : Rat
  taxPrice : Rat
  shippingPrice : Rat
  totalPrice : Rat
deriving Repr, DecidableEq

/-- The verification loop of createOrder (cartController.js second section
lines 230-239): each requested item must name an existing product whose
stock is at least the requested quantity; the loop performs no writes and
stops at the first offending item. -/
def validateOrderItems (ps : Catalog) : List OrderItem → Option ErrorResponse
  | [] => none
  | item :: rest =>
    match findById ps item.product with
    | none => some ⟨"Product not found", 404⟩
    | some p =>
      if p.stock < (item.quantity : Int) then some ⟨"Product is out of stock", 400⟩
      else validateOrderItems ps rest

/-- createOrder (cartController.js second section lines 221-267): reject
an empty item list, verify every item against the catalog, then persist
the order with the client-declared price fields and run the stock
decrement loop. -/
def createOrder (db : DB) (userId : Nat) (orderItems : List OrderItem)
    (prices : DeclaredPrices) (freshOrderId : Nat) : DB × Except ErrorResponse Order :=
  if orderItems.isEmpty then
    (db, .error ⟨"No order items", 400⟩)
  else
    match validateOrderItems db.products orderItems with
    | some e => (db, .error e)
    | none =>
      let order : Order :=
        ⟨freshOrderId, userId, orderItems, prices.itemsPrice, prices.taxPrice,
         prices.shippingPrice, prices.totalPrice, false, none, none⟩
      let db1 : DB := { db with orders := db.orders ++ [order] }
      let step := decrementLoop db1.products (orderItems.map fun i => (i.product, i.quantity))
      let db2 : DB := { db1 with products := step.1 }
      match step.2 with
      | some e => (db2, .error e)
      | none => (db2, .ok order)

/-- The update block of updateOrderToPaid (cartController.js second
section lines 345-355): set isPaid, stamp paidAt with Date.now() and
overwrite the single paymentResult subdocument with the request body
fields. -/
def applyPaid (order : Order) (body : PaymentResult) (now : Nat) : Order :=
  { order with isPaid := true, paidAt := some now, paymentResult := some body }

/-- updateOrderToPaid (cartController.js second section lines 337-364):
find the order by id, 404 when absent, otherwise apply the paid update and
save the document back. -/
def updateOrderToPaid (db : DB) (orderId : Nat) (body : PaymentResult) (now : Nat) :
    DB × Except ErrorResponse Order :=
  match db.orders.find? (fun o => o.id == orderId) with
  | none => (db, .error ⟨"Order not found", 404⟩)
  | some order =>
    let updated := applyPaid order body now
    ({ db with orders := db.orders.map fun o => if o.id == orderId then updated else o },
     .ok updated)

/-! Interleaving model for the per-product stock race (spec section 5).
A reservation transaction is the per-item slice of createOrder — a stock
check (read), the order insert, then the read-modify-write decrement — or
of the processPayment settlement loop, which runs the same insert and
decrement with no prior check. Each database access is one atomic step;
steps of two transactions interleave according to a schedule. -/

/-- The control point a reservation transaction has reached. -/
inductive Phase where
  | start
  | validated
  | created
  | done
  | failed
deriving Repr, DecidableEq

/-- One in-flight reservation transaction: whether it runs the createOrder
stock check (settlement does not), the requesting user, the product and
quantity, and its control point. -/
structure Txn where
  checked : Bool
  user : Nat
  pid : ProductId
  qty : Nat
  phase : Phase
deriving Repr, DecidableEq

/-- The order document such a transaction inserts for its single item. -/
def txnOrder (t : Txn) : Order :=
  ⟨0, t.user, [⟨t.pid, "", t.qty, 0, ""⟩], 0, 0, 0, 0, false, none, none⟩

/-- Advance one transaction by one database access against the shared
product and order collections. The start step is the read-and-compare
stock check of createOrder lines 230-239 (skipped by the uncheckd
settlement path); the validated step inserts the order; the created step
is the findById-subtract-save decrement, whose save fails on the schema
validator when it would persist a negative stock, leaving the already
inserted order in place. -/
def stepTxn (ps : Catalog) (orders : List Order) (t : Txn) :
    Catalog × List Order × Txn :=
  match t.phase with
  | .start =>
    if t.checked then
      match findById ps t.pid with
      | none => (ps, orders, { t with phase := .failed })
      | some p =>
        if p.stock < (t.qty : Int) then (ps, orders, { t with phase := .failed })
        else (ps, orders, { t with phase := .validated })
    else (ps, orders, { t with phase := .validated })
  | .validated => (ps, orders ++ [txnOrder t], { t with phase := .created })
  | .created =>
    match decrementStock ps t.pid t.qty with
    | .error _ => (ps, orders, { t with phase := .failed })
    | .ok ps2 => (ps2, orders, { t with phase := .done })
  | .done => (ps, orders, t)
  | .failed => (ps, orders, t)

/-- Shared state of two concurrent reservation transactions. -/
structure CState where
  products : Catalog
  orders : List Order
  t1 : Txn
  t2 : Txn
deriving Repr, DecidableEq

/-- Run one step of the first (true) or second (false) transaction. -/
def stepState (s : CState) (first : Bool) : CState :=
  match first with
  | true =>
    let r := stepTxn s.products s.orders s.t1
    { s with products := r.1, orders := r.2.1, t1 := r.2.2 }
  | false =>
    let r := stepTxn s.products s.orders s.t2
    { s with products := r.1, orders := r.2.1, t2 := r.2.2 }

/-- Run an interleaving schedule of the two transactions. -/
def runSchedule (s : CState) (sched : List Bool) : CState :=
  sched.foldl stepState s

/-- Every persisted product has non-negative stock. -/
def stocksNonneg (ps : Catalog) : Prop :=
  ∀ p ∈ ps, 0 ≤ p.stock

/-- Total quantity the persisted orders claim to have reserved. -/
def soldQty (os : List Order) : Nat :=
  (os.map fun o => (o.orderItems.map fun i => i.quantity).sum).sum

/-- A createOrder request item the verification loop rejects: its product
is missing, or its quantity exceeds the available stock of its product. -/
def itemInvalid (ps : Catalog) (item : OrderItem) : Prop :=
  findById ps item.product = none ∨
    ∃ p, findById ps item.product = some p ∧ p.stock < (item.quantity : Int)

/-- Sum of price times quantity over cart lines, in plain map-sum form. -/
def itemsSum (items : List CartItem) : Rat :=
  (items.map fun i => i.price * (i.quantity : Rat)).sum

/-- The cart lines are the snapshot of the requested items: line by line
the same product and quantity, with the line price equal to the current
catalog price of that product. -/
def matchesCatalog (catalog : Catalog) : List ReqItem → List CartItem → Bool
  | [], [] => true
  | r :: rs, c :: cs =>
    c.product == r.product && c.quantity == r.quantity &&
      (match findById catalog r.product with
       | some p => c.price == p.price
       | none => false) &&
      matchesCatalog catalog rs cs
  | _, _ => false

/-- Saving a cart re-establishes the totalPrice invariant, because the
pre-save hook recomputes it from the items. -/
theorem cart_save_total (c : Cart) :
    (Cart.save c).totalPrice = cartItemsTotal (Cart.save c).items := rfl

end Ecom

namespace Ecom

/-- Claim C4: createPaymentIntent for a request of 2 units of a product
with catalog price 25.00 and a shipping charge of 5.00, when the product
exists with stock at least 2, computes itemsPrice 50.00, tax 3.50 (7% of
itemsPrice), total 58.50, and requests a gateway amount of exactly 5850
minor currency units. -/
theorem c4_payment_intent_scenario :
    verifyItems [⟨2, "Product B", 25, 2, ""⟩] [⟨2, 2, 0⟩] =
      .ok (50, [⟨2, "Product B", 2, 25, ""⟩]) ∧
    (50 : Rat) * taxRate = 3.5 ∧
    (50 : Rat) + 50 * taxRate + jsOrZero (some 5) = 58.5 ∧
    jsRound ((58.5 : Rat) * 100) = 5850 ∧
    createPaymentIntent [⟨2, "Product B", 25, 2, ""⟩] [⟨2, 2, 0⟩] (some 5) = .ok 5850 := by
  refine ⟨?_, ?_, ?_, ?_, ?_⟩ <;> with_unfolding_all rfl

/-- Claim C8: after every cart mutation (add, update, remove, clear) that
succeeds, the persisted cart is the ok value and its totalPrice equals the
sum over its items of price times quantity. -/
theorem c8_cart_total_invariant :
    (∀ db pid q f db2 c, addToCart db pid q f = (db2, .ok c) →
      c.totalPrice = cartItemsTotal c.items ∧ db2.cart = some c) ∧
    (∀ db iid q db2 c, updateCartItem db iid q = (db2, .ok c) →
      c.totalPrice = cartItemsTotal c.items ∧ db2.cart = some c) ∧
    (∀ db iid db2 c, removeFromCart db iid = (db2, .ok c) →
      c.totalPrice = cartItemsTotal c.items ∧ db2.cart = some c) ∧
    (∀ db db2 c, clearCart db = (db2, .ok c) →
      c.totalPrice = cartItemsTotal c.items ∧ db2.cart = some c) := by
  refine ⟨?_, ?_, ?_, ?_⟩
  · intro db pid q f db2 c h
    unfold addToCart at h
    split at h
    · simp at h
    · split at h
      · simp at h
      · split at h
        · simp only [Prod.mk.injEq, Except.ok.injEq] at h
          obtain ⟨h1, h2⟩ := h
          subst h2
          exact ⟨rfl, by rw [← h1]⟩
        · split at h
          · split at h
            · simp at h
            · simp only [Prod.mk.injEq, Except.ok.injEq] at h
              obtain ⟨h1, h2⟩ := h
              subst h2
              exact ⟨rfl, by rw [← h1]⟩
          · simp only [Prod.mk.injEq, Except.ok.injEq] at h
            obtain ⟨h1, h2⟩ := h
            subst h2
            exact ⟨rfl, by rw [← h1]⟩
  · intro db iid q db2 c h
    unfold updateCartItem at h
    split at h
    · simp at h
    · split at h
      · simp at h
      · split at h
        · simp at h
        · split at h
          · simp at h
          · simp only [Prod.mk.injEq, Except.ok.injEq] at h
            obtain ⟨h1, h2⟩ := h
            subst h2
            exact ⟨rfl, by rw [← h1]⟩
  · intro db iid db2 c h
    unfold removeFromCart at h
    split at h
    · simp at h
    · split at h
      · simp at h
      · simp only [Prod.mk.injEq, Except.ok.injEq] at h
        obtain ⟨h1, h2⟩ := h
        subst h2
        exact ⟨rfl, by rw [← h1]⟩
  · intro db db2 c h
    unfold clearCart at h
    split at h
    · simp at h
    · simp only [Prod.mk.injEq, Except.ok.injEq] at h
      obtain ⟨h1, h2⟩ := h
      subst h2
      exact ⟨rfl, by rw [← h1]⟩

/-- Witness for C8: on a concrete database all four mutations succeed and
the theorem yields the invariant for each resulting cart. -/
theorem c8_cart_total_invariant_witness :
    ((⟨[⟨0, 1, 3, 10⟩], 30⟩ : Cart).totalPrice =
        cartItemsTotal (⟨[⟨0, 1, 3, 10⟩], 30⟩ : Cart).items) ∧
    ((⟨[⟨0, 1, 2, 10⟩], 20⟩ : Cart).totalPrice =
        cartItemsTotal (⟨[⟨0, 1, 2, 10⟩], 20⟩ : Cart).items) ∧
    ((⟨[], 0⟩ : Cart).totalPrice = cartItemsTotal (⟨[], 0⟩ : Cart).items) := by
  refine ⟨?_, ?_, ?_⟩
  · exact (c8_cart_total_invariant.1 ⟨[⟨1, "A", 10, 5, ""⟩], none, []⟩ 1 3 0
      ⟨[⟨1, "A", 10, 5, ""⟩], some ⟨[⟨0, 1, 3, 10⟩], 30⟩, []⟩ ⟨[⟨0, 1, 3, 10⟩], 30⟩
      (by with_unfolding_all rfl)).1
  · exact (c8_cart_total_invariant.2.1 ⟨[⟨1, "A", 10, 5, ""⟩], some ⟨[⟨0, 1, 3, 10⟩], 30⟩, []⟩ 0 2
      ⟨[⟨1, "A", 10, 5, ""⟩], some ⟨[⟨0, 1, 2, 10⟩], 20⟩, []⟩ ⟨[⟨0, 1, 2, 10⟩], 20⟩
      (by with_unfolding_all rfl)).1
  · exact (c8_cart_total_invariant.2.2.2 ⟨[⟨1, "A", 10, 5, ""⟩], some ⟨[⟨0, 1, 3, 10⟩], 30⟩, []⟩
      ⟨[⟨1, "A", 10, 5, ""⟩], some ⟨[], 0⟩, []⟩ ⟨[], 0⟩
      (by with_unfolding_all rfl)).1

/-- The verification loop of createPaymentIntent reads only the product id
and quantity of each request item, never its client-supplied price
field. -/
theorem verifyItems_price_blind (catalog : Catalog) :
    ∀ items1 items2 : List ReqItem,
      items1.map (fun i => (i.product, i.quantity)) =
        items2.map (fun i => (i.product, i.quantity)) →
      verifyItems catalog items1 = verifyItems catalog items2 := by
  intro items1
  induction items1 with
  | nil =>
    intro items2 h
    cases items2 with
    | nil => rfl
    | cons b bs => simp at h
  | cons a as ih =>
    intro items2 h
    cases items2 with
    | nil => simp at h
    | cons b bs =>
      simp only [List.map_cons, List.cons.injEq, Prod.mk.injEq] at h
      obtain ⟨⟨hp, hq⟩, hrest⟩ := h
      unfold verifyItems
      rw [hp, hq, ih bs hrest]

/-- Claim C10: the gateway amount computed by createPaymentIntent depends
only on the catalog, the requested product ids and quantities, and the
shipping charge: two requests that differ only in client-supplied per-item
price fields produce the same result. -/
theorem c10_client_prices_ignored (catalog : Catalog) (items1 items2 : List ReqItem)
    (shipping : Option Rat)
    (h : items1.map (fun i => (i.product, i.quantity)) =
      items2.map (fun i => (i.product, i.quantity))) :
    createPaymentIntent catalog items1 shipping = createPaymentIntent catalog items2 shipping := by
  unfold createPaymentIntent
  rw [verifyItems_price_blind catalog items1 items2 h]

/-- Witness for C10: a request claiming a price of 1 for the two units and
a request claiming 999 are charged identically. -/
theorem c10_client_prices_ignored_witness :
    ([⟨2, 2, 1⟩] : List ReqItem).map (fun i => (i.product, i.quantity)) =
      ([⟨2, 2, 999⟩] : List ReqItem).map (fun i => (i.product, i.quantity)) ∧
    createPaymentIntent [⟨2, "Product B", 25, 2, ""⟩] [⟨2, 2, 1⟩] (some 5) =
      createPaymentIntent [⟨2, "Product B", 25, 2, ""⟩] [⟨2, 2, 999⟩] (some 5) :=
  ⟨rfl, c10_client_prices_ignored [⟨2, "Product B", 25, 2, ""⟩] [⟨2, 2, 1⟩] [⟨2, 2, 999⟩]
    (some 5) rfl⟩

/-- Claim C5: an addToCart whose requested quantity, added to the quantity
of that product already in the cart, exceeds the currently available
stock, fails with a 400 insufficient-stock error and leaves the persisted
state unchanged. -/
theorem c5_add_exceeding_stock_fails (db : DB) (productId : ProductId) (quantity : Nat)
    (freshItemId : Nat) (product : Product)
    (h1 : findById db.products productId = some product)
    (h2 : product.stock < (cartQtyOf db productId : Int) + (quantity : Int)) :
    (addToCart db productId quantity freshItemId).1 = db ∧
    ∃ e, (addToCart db productId quantity freshItemId).2 = .error e ∧ e.statusCode = 400 := by
  unfold addToCart
  rw [h1]
  dsimp only
  by_cases hq : product.stock < (quantity : Int)
  · rw [if_pos hq]
    exact ⟨rfl, _, rfl, rfl⟩
  · rw [if_neg hq]
    cases hdb : db.cart with
    | none =>
      exfalso
      simp only [cartQtyOf, hdb, Nat.cast_zero, zero_add] at h2
      exact hq h2
    | some cart =>
      dsimp only
      cases hfind : cart.items.find? (fun item => item.product == productId) with
      | none =>
        exfalso
        simp only [cartQtyOf, hdb, hfind, Nat.cast_zero, zero_add] at h2
        exact hq h2
      | some existing =>
        dsimp only
        have hcond : product.stock < ((existing.quantity + quantity : Nat) : Int) := by
          have : cartQtyOf db productId = existing.quantity := by
            simp [cartQtyOf, hdb, hfind]
          rw [this] at h2
          push_cast
          exact h2
        rw [if_pos hcond]
        exact ⟨rfl, _, rfl, rfl⟩

/-- Witness for C5, the spec scenario: product with price 10.00 and stock
5, cart already holding quantity 3 (total 30.00); adding quantity 3 again
fails with a 400 and the persisted cart still holds quantity 3 with total
30.00. -/
theorem c5_add_exceeding_stock_fails_witness :
    findById ([⟨1, "A", 10, 5, ""⟩] : Catalog) 1 = some ⟨1, "A", 10, 5, ""⟩ ∧
    (addToCart ⟨[⟨1, "A", 10, 5, ""⟩], none, []⟩ 1 3 0).1.cart = some ⟨[⟨0, 1, 3, 10⟩], 30⟩ ∧
    ((addToCart ⟨[⟨1, "A", 10, 5, ""⟩], some ⟨[⟨0, 1, 3, 10⟩], 30⟩, []⟩ 1 3 1).1 =
        ⟨[⟨1, "A", 10, 5, ""⟩], some ⟨[⟨0, 1, 3, 10⟩], 30⟩, []⟩ ∧
      ∃ e, (addToCart ⟨[⟨1, "A", 10, 5, ""⟩], some ⟨[⟨0, 1, 3, 10⟩], 30⟩, []⟩ 1 3 1).2 =
        .error e ∧ e.statusCode = 400) := by
  refine ⟨by with_unfolding_all rfl, by with_unfolding_all rfl, ?_⟩
  exact c5_add_exceeding_stock_fails ⟨[⟨1, "A", 10, 5, ""⟩], some ⟨[⟨0, 1, 3, 10⟩], 30⟩, []⟩
    1 3 1 ⟨1, "A", 10, 5, ""⟩ (by with_unfolding_all rfl) (by with_unfolding_all decide)

/-- When some requested item is invalid, the verification loop of
createOrder reports an error. -/
theorem validateOrderItems_some (ps : Catalog) :
    ∀ items : List OrderItem, (∃ item ∈ items, itemInvalid ps item) →
      ∃ e, validateOrderItems ps items = some e := by
  intro items
  induction items with
  | nil =>
    rintro ⟨item, hmem, _⟩
    cases hmem
  | cons a as ih =>
    rintro ⟨item, hmem, hinv⟩
    unfold validateOrderItems
    cases hfi : findById ps a.product with
    | none => exact ⟨_, rfl⟩
    | some p =>
      dsimp only
      by_cases hs : p.stock < (a.quantity : Int)
      · rw [if_pos hs]
        exact ⟨_, rfl⟩
      · rw [if_neg hs]
        rcases List.mem_cons.mp hmem with h | h
        · subst h
          rcases hinv with hnone | ⟨q, hq, hlt⟩
          · rw [hfi] at hnone
            cases hnone
          · rw [hfi] at hq
            injection hq with hq
            subst hq
            exact absurd hlt hs
        · exact ih ⟨item, h, hinv⟩

/-- Claim C6: itemized order creation is all-or-nothing: when any
requested item references a missing product or exceeds the available
stock of its product, the whole request fails, no order is persisted, and
no product stock changes. -/
theorem c6_create_order_all_or_nothing (db : DB) (userId : Nat) (orderItems : List OrderItem)
    (prices : DeclaredPrices) (freshOrderId : Nat)
    (h : ∃ item ∈ orderItems, itemInvalid db.products item) :
    (createOrder db userId orderItems prices freshOrderId).1 = db ∧
    ∃ e, (createOrder db userId orderItems prices freshOrderId).2 = .error e := by
  obtain ⟨e, he⟩ := validateOrderItems_some db.products orderItems h
  have hne : orderItems.isEmpty = false := by
    obtain ⟨item, hmem, _⟩ := h
    cases orderItems
    · cases hmem
    · rfl
  unfold createOrder
  rw [hne, he]
  exact ⟨rfl, e, rfl⟩

/-- Witness for C6, the spec scenario: one valid item (2 of product A,
stock 5) and one out-of-stock item (1 of product B, stock 0); the request
fails and the state — including the stock of product A — is unchanged. -/
theorem c6_create_order_all_or_nothing_witness :
    (⟨2, "B", 5, 0, ""⟩ : OrderItem) ∈
        ([⟨1, "A", 2, 10, ""⟩, ⟨2, "B", 5, 0, ""⟩] : List OrderItem) ∧
    ((createOrder ⟨[⟨1, "A", 10, 5, ""⟩, ⟨2, "B", 5, 0, ""⟩], none, []⟩ 1
        [⟨1, "A", 2, 10, ""⟩, ⟨2, "B", 5, 0, ""⟩] ⟨20, 0, 0, 20⟩ 0).1 =
      ⟨[⟨1, "A", 10, 5, ""⟩, ⟨2, "B", 5, 0, ""⟩], none, []⟩ ∧
    ∃ e, (createOrder ⟨[⟨1, "A", 10, 5, ""⟩, ⟨2, "B", 5, 0, ""⟩], none, []⟩ 1
        [⟨1, "A", 2, 10, ""⟩, ⟨2, "B", 5, 0, ""⟩] ⟨20, 0, 0, 20⟩ 0).2 = .error e) := by
  refine ⟨by decide, ?_⟩
  exact c6_create_order_all_or_nothing ⟨[⟨1, "A", 10, 5, ""⟩, ⟨2, "B", 5, 0, ""⟩], none, []⟩ 1
    [⟨1, "A", 2, 10, ""⟩, ⟨2, "B", 5, 0, ""⟩] ⟨20, 0, 0, 20⟩ 0
    ⟨⟨2, "B", 5, 0, ""⟩, by decide,
      Or.inr ⟨⟨2, "B", 5, 0, ""⟩, by with_unfolding_all rfl, by decide⟩⟩

/-- Anatomy of a successful processPayment call: the gateway had reported
the intent succeeded, the cart of the user existed, the order appended to
the order collection is priced from the persisted cart total with 7% tax
and the fixed shipping charge 10, and the cart document is deleted. -/
theorem processPayment_ok (db : DB) (intent : StripeIntent) (u : Nat) (e : String)
    (now fid : Nat) (db1 : DB) (o : Order)
    (h : processPayment db intent u e now fid = (db1, .ok o)) :
    intent.status = "succeeded" ∧
    ∃ cart, db.cart = some cart ∧
      o.itemsPrice = cart.totalPrice ∧
      o.taxPrice = cart.totalPrice * (7 / 100 : Rat) ∧
      o.shippingPrice = 10 ∧
      o.totalPrice = cart.totalPrice + cart.totalPrice * (7 / 100 : Rat) + 10 ∧
      db1.cart = none ∧
      db1.orders = db.orders ++ [o] := by
  unfold processPayment at h
  by_cases hst : intent.status ≠ "succeeded"
  · rw [if_pos hst] at h
    simp at h
  · rw [if_neg hst] at h
    cases hdb : db.cart with
    | none =>
      rw [hdb] at h
      simp at h
    | some cart =>
      rw [hdb] at h
      dsimp only at h
      cases hemp : cart.items.isEmpty with
      | true =>
        rw [hemp, if_pos rfl] at h
        simp at h
      | false =>
        rw [hemp, if_neg Bool.false_ne_true] at h
        cases hpop : populateItems db.products cart.items with
        | error err =>
          rw [hpop] at h
          simp at h
        | ok orderItems =>
          rw [hpop] at h
          dsimp only at h
          cases hstep : (decrementLoop db.products
              (cart.items.map fun i => (i.product, i.quantity))).2 with
          | some err =>
            rw [hstep] at h
            simp at h
          | none =>
            rw [hstep] at h
            simp only [Prod.mk.injEq, Except.ok.injEq] at h
            obtain ⟨h1, h2⟩ := h
            subst h2
            refine ⟨not_not.mp hst, cart, rfl, rfl, rfl, rfl, rfl, ?_, ?_⟩
            · rw [← h1]
            · rw [← h1]

/-- Claim C9 (counterexample): re-applying updateOrderToPaid to the same
order with the same gateway transaction id at a later time is not a
no-op — paidAt is restamped with the time of the call, so the state after
the second application differs from the state after the first. -/
theorem c9_markpaid_counterexample :
    (updateOrderToPaid
        (updateOrderToPaid ⟨[], none, [⟨1, 7, [], 0, 0, 0, 0, false, none, none⟩]⟩ 1
          ⟨"txn_1", "succeeded", 5, "payer"⟩ 1).1
        1 ⟨"txn_1", "succeeded", 5, "payer"⟩ 2).1 ≠
      (updateOrderToPaid ⟨[], none, [⟨1, 7, [], 0, 0, 0, 0, false, none, none⟩]⟩ 1
        ⟨"txn_1", "succeeded", 5, "payer"⟩ 1).1 := by
  with_unfolding_all decide

/-- Claim C9 (amended): the paid update overwrites rather than
accumulates: re-applying it with the same payment body collapses to a
single application at the later time (so there is never a duplicate charge
record — paymentResult holds exactly the body), and re-applying at the
same timestamp is a strict no-op; only the paidAt restamp distinguishes a
replay. -/
theorem c9_markpaid_overwrite (o : Order) (body : PaymentResult) (t1 t2 : Nat) :
    applyPaid (applyPaid o body t1) body t2 = applyPaid o body t2 ∧
    applyPaid (applyPaid o body t1) body t1 = applyPaid o body t1 ∧
    (applyPaid o body t1).paymentResult = some body :=
  ⟨rfl, rfl, rfl⟩

/-- Claim C2 (counterexample): a verified payment_intent.succeeded webhook
event for a cart that is not settled (the cart is present and no order
exists) is acknowledged but triggers no settlement: the persisted state
after handleWebhook is exactly the state before, with no order created
and the cart still in place. -/
theorem c2_webhook_no_settlement_counterexample :
    handleWebhook ⟨[⟨1, "A", 10, 5, ""⟩], some ⟨[⟨0, 1, 1, 10⟩], 10⟩, []⟩ true
        ⟨"payment_intent.succeeded", "pi_1"⟩ =
      (⟨[⟨1, "A", 10, 5, ""⟩], some ⟨[⟨0, 1, 1, 10⟩], 10⟩, []⟩, .ack) ∧
    (⟨[⟨1, "A", 10, 5, ""⟩], some ⟨[⟨0, 1, 1, 10⟩], 10⟩, []⟩ : DB).orders = [] ∧
    (⟨[⟨1, "A", 10, 5, ""⟩], some ⟨[⟨0, 1, 1, 10⟩], 10⟩, []⟩ : DB).cart ≠ none := by
  refine ⟨by with_unfolding_all rfl, rfl, by decide⟩

/-- Claim C2 (amended): the webhook handler never changes domain state —
each branch of its event switch only logs — so replaying any event is
trivially idempotent; and settling the same intent twice through
processPayment produces exactly one order and one round of stock
decrements, because the first settlement deletes the cart and the second
call fails with No-items-in-cart, changing nothing. -/
theorem c2_settlement_once (db : DB) (intent : StripeIntent) (u1 : Nat) (e1 : String)
    (n1 f1 : Nat) (db1 : DB) (o : Order) (u2 : Nat) (e2 : String) (n2 f2 : Nat)
    (h : processPayment db intent u1 e1 n1 f1 = (db1, .ok o)) :
    (∀ db0 sig ev, (handleWebhook db0 sig ev).1 = db0) ∧
    db1.orders = db.orders ++ [o] ∧
    processPayment db1 intent u2 e2 n2 f2 = (db1, .error ⟨"No items in cart", 400⟩) := by
  obtain ⟨hst, cart, _, _, _, _, _, hcart1, horders1⟩ :=
    processPayment_ok db intent u1 e1 n1 f1 db1 o h
  refine ⟨?_, horders1, ?_⟩
  · intro db0 sig ev
    cases sig <;> simp [handleWebhook]
  · unfold processPayment
    rw [if_neg (fun hne => hne hst), hcart1]

end Ecom

namespace Ecom

/-- Folding the cart-total reduce from any accumulator adds the plain
map-sum of the items. -/
theorem cartItemsTotal_foldl (items : List CartItem) :
    ∀ a : Rat, items.foldl (fun total item => total + item.price * (item.quantity : Rat)) a =
      a + itemsSum items := by
  induction items with
  | nil => intro a; simp [itemsSum]
  | cons c cs ih =>
    intro a
    simp only [List.foldl_cons, itemsSum, List.map_cons, List.sum_cons, ih]
    ring

/-- The cart pre-save total is the sum of price times quantity. -/
theorem cartItemsTotal_eq (items : List CartItem) : cartItemsTotal items = itemsSum items := by
  unfold cartItemsTotal
  rw [cartItemsTotal_foldl]
  ring

/-- When the cart lines are the catalog snapshot of the requested items,
the total accumulated by the verification loop of createPaymentIntent is
exactly the sum of line price times quantity of the cart. -/
theorem verifyItems_total (catalog : Catalog) :
    ∀ (rs : List ReqItem) (cs : List CartItem) (t : Rat) (os : List OrderItem),
      matchesCatalog catalog rs cs = true →
      verifyItems catalog rs = .ok (t, os) →
      t = itemsSum cs := by
  intro rs
  induction rs with
  | nil =>
    intro cs t os hm hv
    cases cs with
    | nil =>
      simp only [verifyItems, Except.ok.injEq, Prod.mk.injEq] at hv
      rw [← hv.1]
      simp [itemsSum]
    | cons c cs => simp [matchesCatalog] at hm
  | cons r rs ih =>
    intro cs t os hm hv
    cases cs with
    | nil => simp [matchesCatalog] at hm
    | cons c cs =>
      simp only [matchesCatalog, Bool.and_eq_true, beq_iff_eq] at hm
      obtain ⟨⟨⟨hp, hq⟩, hprice⟩, hrest⟩ := hm
      unfold verifyItems at hv
      cases hfi : findById catalog r.product with
      | none =>
        rw [hfi] at hv
        simp at hv
      | some p =>
        rw [hfi] at hv
        rw [hfi] at hprice
        dsimp only at hv hprice
        rw [beq_iff_eq] at hprice
        by_cases hs : p.stock < (r.quantity : Int)
        · rw [if_pos hs] at hv
          simp at hv
        · rw [if_neg hs] at hv
          cases hrec : verifyItems catalog rs with
          | error err =>
            rw [hrec] at hv
            simp at hv
          | ok pair =>
            rw [hrec] at hv
            obtain ⟨t2, os2⟩ := pair
            dsimp only at hv
            simp only [Except.ok.injEq, Prod.mk.injEq] at hv
            obtain ⟨hv1, _⟩ := hv
            have ht2 : t2 = itemsSum cs := ih cs t2 os2 hrest hrec
            simp only [itemsSum, List.map_cons, List.sum_cons]
            rw [← hv1, ht2, hprice, hq]
            simp [itemsSum]

end Ecom

namespace Ecom

/-- Anatomy of a successful createPaymentIntent call: the verification
loop succeeded with some accumulated total, and the returned amount is
that total plus 7% tax plus the shipping charge, rounded after the
conversion to minor units. -/
theorem createPaymentIntent_ok (catalog : Catalog) (items : List ReqItem)
    (shipping : Option Rat) (a : Int)
    (h : createPaymentIntent catalog items shipping = .ok a) :
    ∃ t os, verifyItems catalog items = .ok (t, os) ∧
      a = jsRound ((t + t * taxRate + jsOrZero shipping) * 100) := by
  unfold createPaymentIntent at h
  cases hv : verifyItems catalog items with
  | error err =>
    rw [hv] at h
    simp at h
  | ok pair =>
    rw [hv] at h
    obtain ⟨t, os⟩ := pair
    dsimp only at h
    simp only [Except.ok.injEq] at h
    exact ⟨t, os, rfl, h.symm⟩

/-- Claim C1 (counterexample): for the same cart the amount authorized at
the gateway and the amount recorded on the order differ for a shipping
charge other than 10 — here a cart of one unit at price 10.00 with
shipping charge 5.00: the intent is authorized for 1570 minor units while
the order is recorded at 20.70 (2070 minor units), because
createPaymentIntent uses the client-supplied shipping charge while
processPayment uses the fixed shipping price 10. -/
theorem c1_amount_mismatch_counterexample :
    createPaymentIntent [⟨1, "A", 10, 5, ""⟩] [⟨1, 1, 0⟩] (some 5) = .ok 1570 ∧
    (processPayment ⟨[⟨1, "A", 10, 5, ""⟩], some ⟨[⟨0, 1, 1, 10⟩], 10⟩, []⟩
        ⟨"pi_1", "succeeded"⟩ 7 "payer" 3 0).2 =
      .ok ⟨0, 7, [⟨1, "A", 1, 10, ""⟩], 10, 7/10, 10, 207/10, true, some 3,
        some ⟨"pi_1", "succeeded", 3, "payer"⟩⟩ ∧
    jsRound ((207/10 : Rat) * 100) = 2070 ∧
    (1570 : Int) ≠ 2070 := by
  refine ⟨by with_unfolding_all rfl, by with_unfolding_all rfl, by with_unfolding_all rfl,
    by decide⟩

/-- Claim C1 (amended): the amount authorized by createPaymentIntent
equals the minor-unit conversion of the total recorded on the order
created by processPayment, provided the client-supplied shipping charge
equals the fixed settlement shipping price 10 and the cart is the catalog
snapshot of the requested items (same products and quantities, line
prices equal to the current catalog prices, cart total as persisted by
the pre-save hook). With a different shipping charge, or stale snapshot
prices, the two amounts differ. -/
theorem c1_gateway_amount_matches_order (db : DB) (items : List ReqItem) (cart : Cart)
    (shipping : Option Rat) (amount : Int) (intent : StripeIntent) (u : Nat) (e : String)
    (now fid : Nat) (db2 : DB) (o : Order)
    (hm : matchesCatalog db.products items cart.items = true)
    (hc : db.cart = some cart)
    (ht : cart.totalPrice = cartItemsTotal cart.items)
    (hs : shipping = some 10)
    (hi : createPaymentIntent db.products items shipping = .ok amount)
    (hp : processPayment db intent u e now fid = (db2, .ok o)) :
    jsRound (o.totalPrice * 100) = amount := by
  obtain ⟨-, cart0, hc0, -, -, -, htot, -, -⟩ := processPayment_ok db intent u e now fid db2 o hp
  rw [hc] at hc0
  injection hc0 with hc0
  subst hc0
  obtain ⟨t, os, hv, ha⟩ := createPaymentIntent_ok db.products items shipping amount hi
  have htt : t = itemsSum cart.items := verifyItems_total db.products items cart.items t os hm hv
  have hT : cart.totalPrice = t := by
    rw [ht, cartItemsTotal_eq, htt]
  rw [htot, hT, ha, hs]
  rfl

/-- Witness for the amended C1: with shipping charge 10 and a fresh
catalog-priced cart, the authorized amount 2070 is exactly the minor-unit
conversion of the recorded order total 20.70. -/
theorem c1_gateway_amount_matches_order_witness :
    (processPayment ⟨[⟨1, "A", 10, 5, ""⟩], some ⟨[⟨0, 1, 1, 10⟩], 10⟩, []⟩
        ⟨"pi_1", "succeeded"⟩ 7 "payer" 3 0) =
      (⟨[⟨1, "A", 10, 4, ""⟩], none,
          [⟨0, 7, [⟨1, "A", 1, 10, ""⟩], 10, 7/10, 10, 207/10, true, some 3,
            some ⟨"pi_1", "succeeded", 3, "payer"⟩⟩]⟩,
        .ok ⟨0, 7, [⟨1, "A", 1, 10, ""⟩], 10, 7/10, 10, 207/10, true, some 3,
          some ⟨"pi_1", "succeeded", 3, "payer"⟩⟩) ∧
    jsRound ((⟨0, 7, [⟨1, "A", 1, 10, ""⟩], 10, 7/10, 10, 207/10, true, some 3,
        some ⟨"pi_1", "succeeded", 3, "payer"⟩⟩ : Order).totalPrice * 100) = 2070 := by
  refine ⟨by with_unfolding_all rfl, ?_⟩
  exact c1_gateway_amount_matches_order
    ⟨[⟨1, "A", 10, 5, ""⟩], some ⟨[⟨0, 1, 1, 10⟩], 10⟩, []⟩ [⟨1, 1, 0⟩] ⟨[⟨0, 1, 1, 10⟩], 10⟩
    (some 10) 2070 ⟨"pi_1", "succeeded"⟩ 7 "payer" 3 0
    ⟨[⟨1, "A", 10, 4, ""⟩], none,
      [⟨0, 7, [⟨1, "A", 1, 10, ""⟩], 10, 7/10, 10, 207/10, true, some 3,
        some ⟨"pi_1", "succeeded", 3, "payer"⟩⟩]⟩
    ⟨0, 7, [⟨1, "A", 1, 10, ""⟩], 10, 7/10, 10, 207/10, true, some 3,
      some ⟨"pi_1", "succeeded", 3, "payer"⟩⟩
    (by with_unfolding_all rfl) (by with_unfolding_all rfl) (by with_unfolding_all rfl) rfl
    (by with_unfolding_all rfl) (by with_unfolding_all rfl)

end Ecom

namespace Ecom

/-- Claim C7 (counterexample): createOrder persists the client-declared
price fields unchecked — declaring itemsPrice 0, taxPrice 0,
shippingPrice 0 and totalPrice 999 yields a persisted order whose
totalPrice is not the sum of its price components. -/
theorem c7_declared_total_counterexample :
    createOrder ⟨[⟨1, "A", 10, 5, ""⟩], none, []⟩ 1 [⟨1, "A", 1, 10, ""⟩] ⟨0, 0, 0, 999⟩ 0 =
      (⟨[⟨1, "A", 10, 4, ""⟩], none,
          [⟨0, 1, [⟨1, "A", 1, 10, ""⟩], 0, 0, 0, 999, false, none, none⟩]⟩,
        .ok ⟨0, 1, [⟨1, "A", 1, 10, ""⟩], 0, 0, 0, 999, false, none, none⟩) ∧
    ((999 : Rat) ≠ 0 + 0 + 0) := by
  refine ⟨by with_unfolding_all rfl, by with_unfolding_all decide⟩

/-- Claim C7 (amended): every order persisted by processPayment satisfies
totalPrice = itemsPrice + taxPrice + shippingPrice exactly; an order
persisted by createOrder carries precisely the client-declared price
fields, so it satisfies the identity exactly when the declared fields do.
Each call appends at most one order and never modifies existing ones. -/
theorem c7_order_total_consistency :
    (∀ db intent u e now fid db2 r, processPayment db intent u e now fid = (db2, r) →
      db2.orders = db.orders ∨
        ∃ ord, db2.orders = db.orders ++ [ord] ∧
          ord.totalPrice = ord.itemsPrice + ord.taxPrice + ord.shippingPrice) ∧
    (∀ db u items prices fid db2 r, createOrder db u items prices fid = (db2, r) →
      db2.orders = db.orders ∨
        ∃ ord, db2.orders = db.orders ++ [ord] ∧
          ord.itemsPrice = prices.itemsPrice ∧ ord.taxPrice = prices.taxPrice ∧
          ord.shippingPrice = prices.shippingPrice ∧ ord.totalPrice = prices.totalPrice) := by
  constructor
  · intro db intent u e now fid db2 r h
    unfold processPayment at h
    by_cases hst : intent.status ≠ "succeeded"
    · rw [if_pos hst] at h
      exact Or.inl (by rw [← (Prod.mk.injEq .. |>.mp h).1])
    · rw [if_neg hst] at h
      cases hdb : db.cart with
      | none =>
        rw [hdb] at h
        exact Or.inl (by rw [← (Prod.mk.injEq .. |>.mp h).1])
      | some cart =>
        rw [hdb] at h
        dsimp only at h
        cases hemp : cart.items.isEmpty with
        | true =>
          rw [hemp, if_pos rfl] at h
          exact Or.inl (by rw [← (Prod.mk.injEq .. |>.mp h).1])
        | false =>
          rw [hemp, if_neg Bool.false_ne_true] at h
          cases hpop : populateItems db.products cart.items with
          | error err =>
            rw [hpop] at h
            exact Or.inl (by rw [← (Prod.mk.injEq .. |>.mp h).1])
          | ok orderItems =>
            rw [hpop] at h
            dsimp only at h
            cases hstep : (decrementLoop db.products
                (cart.items.map fun i => (i.product, i.quantity))).2 with
            | some err =>
              rw [hstep] at h
              obtain ⟨h1, -⟩ := Prod.mk.injEq .. |>.mp h
              subst h1
              exact Or.inr ⟨_, rfl, rfl⟩
            | none =>
              rw [hstep] at h
              obtain ⟨h1, -⟩ := Prod.mk.injEq .. |>.mp h
              subst h1
              exact Or.inr ⟨_, rfl, rfl⟩
  · intro db u items prices fid db2 r h
    unfold createOrder at h
    cases hemp : items.isEmpty with
    | true =>
      rw [hemp, if_pos rfl] at h
      exact Or.inl (by rw [← (Prod.mk.injEq .. |>.mp h).1])
    | false =>
      rw [hemp, if_neg Bool.false_ne_true] at h
      cases hval : validateOrderItems db.products items with
      | some err =>
        rw [hval] at h
        exact Or.inl (by rw [← (Prod.mk.injEq .. |>.mp h).1])
      | none =>
        rw [hval] at h
        dsimp only at h
        cases hstep : (decrementLoop db.products (items.map fun i => (i.product, i.quantity))).2 with
        | some err =>
          rw [hstep] at h
          obtain ⟨h1, -⟩ := Prod.mk.injEq .. |>.mp h
          subst h1
          exact Or.inr ⟨_, rfl, rfl, rfl, rfl, rfl⟩
        | none =>
          rw [hstep] at h
          obtain ⟨h1, -⟩ := Prod.mk.injEq .. |>.mp h
          subst h1
          exact Or.inr ⟨_, rfl, rfl, rfl, rfl, rfl⟩

/-- Witness for the amended C7: a concrete createOrder call with
consistent declared prices (1 + 2 + 3 = 6) appends exactly that order. -/
theorem c7_order_total_consistency_witness :
    (⟨[⟨1, "A", 10, 4, ""⟩], none,
        [⟨0, 1, [⟨1, "A", 1, 10, ""⟩], 1, 2, 3, 6, false, none, none⟩]⟩ : DB).orders =
      (⟨[⟨1, "A", 10, 5, ""⟩], none, []⟩ : DB).orders ∨
    ∃ ord, (⟨[⟨1, "A", 10, 4, ""⟩], none,
        [⟨0, 1, [⟨1, "A", 1, 10, ""⟩], 1, 2, 3, 6, false, none, none⟩]⟩ : DB).orders =
        (⟨[⟨1, "A", 10, 5, ""⟩], none, []⟩ : DB).orders ++ [ord] ∧
      ord.itemsPrice = (⟨1, 2, 3, 6⟩ : DeclaredPrices).itemsPrice ∧
      ord.taxPrice = (⟨1, 2, 3, 6⟩ : DeclaredPrices).taxPrice ∧
      ord.shippingPrice = (⟨1, 2, 3, 6⟩ : DeclaredPrices).shippingPrice ∧
      ord.totalPrice = (⟨1, 2, 3, 6⟩ : DeclaredPrices).totalPrice :=
  c7_order_total_consistency.2 ⟨[⟨1, "A", 10, 5, ""⟩], none, []⟩ 1 [⟨1, "A", 1, 10, ""⟩]
    ⟨1, 2, 3, 6⟩ 0
    ⟨[⟨1, "A", 10, 4, ""⟩], none, [⟨0, 1, [⟨1, "A", 1, 10, ""⟩], 1, 2, 3, 6, false, none, none⟩]⟩
    (.ok ⟨0, 1, [⟨1, "A", 1, 10, ""⟩], 1, 2, 3, 6, false, none, none⟩)
    (by with_unfolding_all rfl)

end Ecom

namespace Ecom

/-- With duplicate-free ids, any list member passing the id test is the
one that find? returns. -/
theorem find_eq_of_id_nodup (ps : Catalog) (pid : ProductId) (p q : Product)
    (hf : findById ps pid = some p) (hq : q ∈ ps) (hqid : q.id = pid)
    (hnd : (ps.map Product.id).Nodup) : q = p := by
  unfold findById at hf
  have hmem : p ∈ ps := List.mem_of_find?_eq_some hf
  have hpid : p.id = pid := by simpa using List.find?_some hf
  have hids : Product.id q = Product.id p := by
    rw [hqid, hpid]
  exact List.inj_on_of_nodup_map hnd hq hmem hids

/-- A successful decrement save keeps the catalog ids unchanged. -/
theorem decrementStock_ok_ids (ps : Catalog) (pid : ProductId) (qty : Nat) (ps2 : Catalog)
    (h : decrementStock ps pid qty = .ok ps2) :
    ps2.map Product.id = ps.map Product.id := by
  unfold decrementStock at h
  cases hfi : findById ps pid with
  | none =>
    rw [hfi] at h
    simp at h
  | some p =>
    rw [hfi] at h
    dsimp only at h
    by_cases hneg : p.stock - (qty : Int) < 0
    · rw [if_pos hneg] at h
      simp at h
    · rw [if_neg hneg] at h
      simp only [Except.ok.injEq] at h
      subst h
      clear hfi
      induction ps with
      | nil => rfl
      | cons b bs ihb =>
        simp only [List.map_cons, ihb]
        congr 1
        split <;> rfl

/-- A successful decrement save never persists a negative stock: the
written value is checked non-negative by the schema validator, every
other record is untouched. -/
theorem decrementStock_ok_nonneg (ps : Catalog) (pid : ProductId) (qty : Nat) (ps2 : Catalog)
    (hn : stocksNonneg ps) (hd : (ps.map Product.id).Nodup)
    (h : decrementStock ps pid qty = .ok ps2) : stocksNonneg ps2 := by
  unfold decrementStock at h
  cases hfi : findById ps pid with
  | none =>
    rw [hfi] at h
    simp at h
  | some p =>
    rw [hfi] at h
    dsimp only at h
    by_cases hneg : p.stock - (qty : Int) < 0
    · rw [if_pos hneg] at h
      simp at h
    · rw [if_neg hneg] at h
      simp only [Except.ok.injEq] at h
      subst h
      intro x hx
      obtain ⟨q, hq, hxq⟩ := List.mem_map.mp hx
      by_cases hqid : (q.id == pid) = true
      · have hq_eq : q = p := find_eq_of_id_nodup ps pid p q hfi hq (beq_iff_eq.mp hqid) hd
        rw [← hxq]
        simp only [hqid, if_true]
        rw [hq_eq]
        exact not_lt.mp hneg
      · rw [← hxq]
        simp only [hqid]
        rw [if_neg (by simp [hqid])]
        exact hn q hq

/-- One transaction step keeps all persisted stocks non-negative and the
catalog ids unchanged. -/
theorem stepTxn_preserves (ps : Catalog) (orders : List Order) (t : Txn)
    (hn : stocksNonneg ps) (hd : (ps.map Product.id).Nodup) :
    stocksNonneg (stepTxn ps orders t).1 ∧
      (stepTxn ps orders t).1.map Product.id = ps.map Product.id := by
  unfold stepTxn
  cases hph : t.phase with
  | start =>
    dsimp only
    split
    · split
      · exact ⟨hn, rfl⟩
      · split
        · exact ⟨hn, rfl⟩
        · exact ⟨hn, rfl⟩
    · exact ⟨hn, rfl⟩
  | validated => exact ⟨hn, rfl⟩
  | created =>
    dsimp only
    cases hds : decrementStock ps t.pid t.qty with
    | error err => exact ⟨hn, rfl⟩
    | ok ps2 =>
      exact ⟨decrementStock_ok_nonneg ps t.pid t.qty ps2 hn hd hds,
        decrementStock_ok_ids ps t.pid t.qty ps2 hds⟩
  | done => exact ⟨hn, rfl⟩
  | failed => exact ⟨hn, rfl⟩

/-- One scheduled step of either transaction preserves the invariant. -/
theorem stepState_preserves (s : CState) (b : Bool)
    (hn : stocksNonneg s.products) (hd : (s.products.map Product.id).Nodup) :
    stocksNonneg (stepState s b).products ∧
      ((stepState s b).products.map Product.id).Nodup := by
  cases b with
  | true =>
    have h := stepTxn_preserves s.products s.orders s.t1 hn hd
    exact ⟨h.1, by dsimp only [stepState]; rw [h.2]; exact hd⟩
  | false =>
    have h := stepTxn_preserves s.products s.orders s.t2 hn hd
    exact ⟨h.1, by dsimp only [stepState]; rw [h.2]; exact hd⟩

/-- Claim C3 (amended): under every interleaving of two concurrent
checkout or settlement transactions, the persisted stock of every product
stays non-negative — not because the reserve step is an atomic
conditional decrement (it is a read-then-write pair), but because the
schema validator rejects any save that would persist a negative value.
Joint over-reservation is still possible (see the counterexample). -/
theorem c3_stock_never_negative (s : CState) (sched : List Bool)
    (hn : stocksNonneg s.products) (hd : (s.products.map Product.id).Nodup) :
    stocksNonneg ((runSchedule s sched).products) := by
  induction sched generalizing s with
  | nil => exact hn
  | cons b bs ih =>
    have h := stepState_preserves s b hn hd
    simp only [runSchedule, List.foldl_cons]
    exact ih (stepState s b) h.1 h.2

/-- Witness for the amended C3: a concrete two-transaction interleaving
from non-negative stocks ends with non-negative stocks. -/
theorem c3_stock_never_negative_witness :
    stocksNonneg ((runSchedule ⟨[⟨1, "A", 10, 5, ""⟩], [], ⟨true, 1, 1, 5, .start⟩,
        ⟨true, 2, 1, 5, .start⟩⟩ [true, false, true, false, true, false]).products) :=
  c3_stock_never_negative ⟨[⟨1, "A", 10, 5, ""⟩], [], ⟨true, 1, 1, 5, .start⟩,
      ⟨true, 2, 1, 5, .start⟩⟩ [true, false, true, false, true, false]
    (by unfold stocksNonneg; decide) (by decide)

/-- Claim C3 (counterexample): the reserve step is a read-then-write
pair, so two concurrent checked checkouts of 5 units each against a
product with stock 5 can both pass the stock check and both persist their
orders: the run ends with two orders jointly claiming 10 units from an
available stock of 5 (the second decrement save fails on the validator
after its order is already persisted, leaving stock at 0). -/
theorem c3_joint_oversell_counterexample :
    (runSchedule ⟨[⟨1, "A", 10, 5, ""⟩], [], ⟨true, 1, 1, 5, .start⟩, ⟨true, 2, 1, 5, .start⟩⟩
        [true, false, true, false, true, false]).orders.length = 2 ∧
    soldQty (runSchedule ⟨[⟨1, "A", 10, 5, ""⟩], [], ⟨true, 1, 1, 5, .start⟩,
        ⟨true, 2, 1, 5, .start⟩⟩ [true, false, true, false, true, false]).orders = 10 ∧
    (runSchedule ⟨[⟨1, "A", 10, 5, ""⟩], [], ⟨true, 1, 1, 5, .start⟩,
        ⟨true, 2, 1, 5, .start⟩⟩ [true, false, true, false, true, false]).products =
      [⟨1, "A", 10, 0, ""⟩] ∧
    (5 : Nat) < 10 := by
  refine ⟨by with_unfolding_all rfl, by with_unfolding_all rfl, by with_unfolding_all rfl,
    by decide⟩

end Ecom

namespace Ecom

/-- Witness for the amended C2: a concrete successful settlement appends
exactly one order, and repeating processPayment for the same intent fails
with No-items-in-cart leaving the state untouched. -/
theorem c2_settlement_once_witness :
    (⟨[⟨1, "A", 10, 3, ""⟩], none,
        [⟨1, 4, [⟨1, "A", 2, 10, ""⟩], 20, 7/5, 10, 157/5, true, some 9,
          some ⟨"pi_2", "succeeded", 9, "w"⟩⟩]⟩ : DB).orders =
      (⟨[⟨1, "A", 10, 5, ""⟩], some ⟨[⟨0, 1, 2, 10⟩], 20⟩, []⟩ : DB).orders ++
        [⟨1, 4, [⟨1, "A", 2, 10, ""⟩], 20, 7/5, 10, 157/5, true, some 9,
          some ⟨"pi_2", "succeeded", 9, "w"⟩⟩] ∧
    processPayment ⟨[⟨1, "A", 10, 3, ""⟩], none,
        [⟨1, 4, [⟨1, "A", 2, 10, ""⟩], 20, 7/5, 10, 157/5, true, some 9,
          some ⟨"pi_2", "succeeded", 9, "w"⟩⟩]⟩ ⟨"pi_2", "succeeded"⟩ 4 "w" 11 2 =
      (⟨[⟨1, "A", 10, 3, ""⟩], none,
          [⟨1, 4, [⟨1, "A", 2, 10, ""⟩], 20, 7/5, 10, 157/5, true, some 9,
            some ⟨"pi_2", "succeeded", 9, "w"⟩⟩]⟩, .error ⟨"No items in cart", 400⟩) :=
  (c2_settlement_once ⟨[⟨1, "A", 10, 5, ""⟩], some ⟨[⟨0, 1, 2, 10⟩], 20⟩, []⟩
    ⟨"pi_2", "succeeded"⟩ 4 "w" 9 1
    ⟨[⟨1, "A", 10, 3, ""⟩], none,
      [⟨1, 4, [⟨1, "A", 2, 10, ""⟩], 20, 7/5, 10, 157/5, true, some 9,
        some ⟨"pi_2", "succeeded", 9, "w"⟩⟩]⟩
    ⟨1, 4, [⟨1, "A", 2, 10, ""⟩], 20, 7/5, 10, 157/5, true, some 9,
      some ⟨"pi_2", "succeeded", 9, "w"⟩⟩ 4 "w" 11 2
    (by with_unfolding_all rfl)).2

end Ecom
